import Mathlib

/-!
Verification of the code-formatting advisory cog (`bot/cogs/code_formatting.py`).

The development shallowly embeds the cog's pure core over `List Char`:
the fenced-block extractor (`RE_CODE_BLOCK` + `find_code_blocks`), the
classifiers (`is_repl_code`, `is_python_code`), the advisory composers
(`get_bad_ticks_message`, `get_bad_lang_message`, `get_no_lang_message`,
`get_no_ticks_message`) and the two event handlers (`on_message`,
`on_raw_message_edit`) as explicit state-passing functions.

External collaborators (discord transport, `ast.parse`, the token scanner,
channel/category constants) are parameters or oracle arguments.  Python code
that can raise is embedded with `Except`.
-/

/-- Text is embedded as a list of characters (Python `str`). -/
abbrev Text := List Char

/-- `BACKTICK = "`"` (U+0060); written numerically. -/
def BACKTICK : Char := Char.ofNat 96

/-- The `TICKS` set of the source: the canonical backtick plus the visually
confusable quote characters (apostrophe U+0027, quotation mark U+0022, acute
accent U+00B4, single quotes U+2018/U+2019, prime U+2032, double quotes
U+201C/U+201D, double prime U+2033, vertical kana repeat mark U+3003). -/
def TICKS : List Char :=
  [BACKTICK, Char.ofNat 39, Char.ofNat 34, Char.ofNat 180, Char.ofNat 8216,
   Char.ofNat 8217, Char.ofNat 8242, Char.ofNat 8220, Char.ofNat 8221,
   Char.ofNat 8243, Char.ofNat 12291]

/-- The newline character. -/
def NLc : Char := Char.ofNat 10

/-- `beginsWith pat s` is Python's `s.startswith(pat)`. -/
def beginsWith : Text → Text → Bool
  | [], _ => true
  | _ :: _, [] => false
  | p :: ps, c :: cs => p = c && beginsWith ps cs

/-- The character class `[^\W_]` of `RE_CODE_BLOCK`: a word character other
than an underscore, i.e. a letter or digit.  (Python's `\w` also covers
non-ASCII letters; the embedding uses the ASCII alphanumeric class, which is
what every tag in the claims exercises.) -/
def isWordChar (c : Char) : Bool := c.isAlphanum

/-- A parsed Markdown code block (the `CodeBlock` named tuple):
`content` is the `code` group, `language` the stripped `lang` group,
`tick` the fence character. -/
structure CodeBlock where
  content : Text
  language : Text
  tick : Char
  deriving DecidableEq, Repr

/-- The optional `(?P<lang>[^\W_]+\n)?` group tried at the position after the
opening fence: a non-empty maximal run of word characters that must be
followed immediately by a newline.  Returns the run (the stripped tag) and
the text after the newline.  Backtracking inside `+` can never help, because
any shorter run is followed by a further word character, not a newline. -/
def tryLang (rest : Text) : Option (Text × Text) :=
  let run := rest.takeWhile isWordChar
  match run, rest.dropWhile isWordChar with
  | [], _ => none
  | _ :: _, c :: t => if c = NLc then some (run, t) else none
  | _ :: _, [] => none

/-- The `(?P<code>.+?)\1` part: the shortest non-empty prefix of `s` that is
followed by the closing fence `ccc` (the same three tick characters).
Returns the code and the text after the closing fence. -/
def findCloseAux (ccc : Text) : Text → Option (Text × Text)
  | [] => none
  | c :: t =>
    if beginsWith ccc t then some ([c], t.drop ccc.length)
    else
      match findCloseAux ccc t with
      | some (code, rest) => some (c :: code, rest)
      | none => none

/-- One attempt of `RE_CODE_BLOCK` anchored at the start of `s`:
three identical tick characters, then the optional greedy language-tag
group, then the non-greedy code up to the same three ticks.  If the
language group matched but no closing fence follows, the regex engine
backtracks and retries with the group skipped.  Returns the block and the
text after the match (where `finditer` resumes). -/
def matchAt (s : Text) : Option (CodeBlock × Text) :=
  match s with
  | c1 :: c2 :: c3 :: rest =>
    if c1 ∈ TICKS ∧ c2 = c1 ∧ c3 = c1 then
      let ccc := [c1, c1, c1]
      match tryLang rest with
      | some (run, afterLang) =>
        match findCloseAux ccc afterLang with
        | some (code, after) => some (⟨code, run, c1⟩, after)
        | none =>
          match findCloseAux ccc rest with
          | some (code, after) => some (⟨code, [], c1⟩, after)
          | none => none
      | none =>
        match findCloseAux ccc rest with
        | some (code, after) => some (⟨code, [], c1⟩, after)
        | none => none
    else none
  | _ => none

/-- `len(s.split("\n", 3))`: one more than the number of newlines, capped at
three splits. -/
def split3len (s : Text) : Nat := min (s.count NLc) 3 + 1

/-- The `finditer` loop of `find_code_blocks`.  `none` models the early
`return ()` taken when a match has valid ticks and a language; otherwise the
matches whose code spans more than three lines are collected in scan order.
The fuel only bounds the recursion; every step consumes at least one
character, so `fuel = s.length` never runs out before the scan ends. -/
def findAux : Nat → Text → Option (List CodeBlock)
  | 0, _ => some []
  | _ + 1, [] => some []
  | fuel + 1, c :: t =>
    match matchAt (c :: t) with
    | none => findAux fuel t
    | some (b, rest) =>
      if b.tick = BACKTICK ∧ ¬(b.language = []) then none
      else
        match findAux fuel rest with
        | none => none
        | some bs => some (if 3 < split3len b.content then b :: bs else bs)

/-- `CodeFormatting.find_code_blocks`. -/
def find_code_blocks (s : Text) : List CodeBlock :=
  match findAux s.length s with
  | none => []
  | some bs => bs

/-- All matches of the `finditer` scan in order, with no filtering and no
early return: the sequence of blocks the loop of `find_code_blocks`
iterates over. -/
def rawMatchesAux : Nat → Text → List CodeBlock
  | 0, _ => []
  | _ + 1, [] => []
  | fuel + 1, c :: t =>
    match matchAt (c :: t) with
    | none => rawMatchesAux fuel t
    | some (b, rest) => b :: rawMatchesAux fuel rest

/-- The full match sequence of the scan over `s`. -/
def rawMatches (s : Text) : List CodeBlock := rawMatchesAux s.length s

/-- Python `str.splitlines`, accumulator version.  Lines are split at `\n`,
`\r\n` and `\r`; a trailing boundary produces no trailing empty line.
(Python also splits at `\v`, `\f`, `\x1c`-`\x1e`, `\x85`, ` `,
` `; the embedding models the newline conventions the REPL-prompt
counting exercises.) -/
def splitlinesAux : Text → Text → List Text
  | [], [] => []
  | [], acc => [acc.reverse]
  | '\r' :: '\n' :: t, acc => acc.reverse :: splitlinesAux t []
  | '\n' :: t, acc => acc.reverse :: splitlinesAux t []
  | '\r' :: t, acc => acc.reverse :: splitlinesAux t []
  | c :: t, acc => splitlinesAux t (c :: acc)

/-- Python `content.splitlines()`. -/
def splitlines (s : Text) : List Text := splitlinesAux s []

/-- The REPL prompt markers checked by `is_repl_code`. -/
def PROMPT_GT : Text := ['>', '>', '>', ' ']

/-- The REPL continuation markers checked by `is_repl_code`. -/
def PROMPT_DOTS : Text := ['.', '.', '.', ' ']

/-- `line.startswith(">>> ") or line.startswith("... ")`. -/
def isPromptLine (line : Text) : Bool :=
  beginsWith PROMPT_GT line || beginsWith PROMPT_DOTS line

/-- The counting loop of `is_repl_code`: bump the counter on a prompt line,
return `True` the moment the counter equals the threshold, `False` when the
lines run out. -/
def replGo (threshold : Nat) : List Text → Nat → Bool
  | [], _ => false
  | line :: rest, repl_lines =>
    let r := if isPromptLine line then repl_lines + 1 else repl_lines
    if r = threshold then true else replGo threshold rest r

/-- `CodeFormatting.is_repl_code` (the Python default for `threshold` is 3). -/
def is_repl_code (content : Text) (threshold : Nat) : Bool :=
  replGo threshold (splitlines content) 0

/-- The observable shape of a top-level node of `ast.parse`: either a bare
expression statement (`ast.Expr`) or any other statement kind. -/
inductive PyStmt
  | exprStmt
  | otherStmt
  deriving DecidableEq, Repr

/-- `CodeFormatting.is_python_code`.  CPython's `ast.parse` is an external
collaborator, abstracted as a total function `parse` returning the kinds of
the top-level nodes on success and `none` on `SyntaxError` (the `except`
branch). -/
def is_python_code (parse : Text → Option (List PyStmt)) (content : Text) : Bool :=
  match parse content with
  | none => false
  | some body => !(body.all (fun node => node = PyStmt.exprStmt))

/-- Exceptions the composer code can raise. -/
inductive PyErr
  | indexError
  deriving DecidableEq, Repr

/-- Python whitespace stripped by `str.lstrip` (ASCII part). -/
def isPySpace (c : Char) : Bool :=
  c = ' ' || c = '\t' || c = '\n' || c = '\r' || c = Char.ofNat 11 || c = Char.ofNat 12

/-- Python `content.lstrip()`. -/
def lstrip (s : Text) : Text := s.dropWhile isPySpace

/-- Python `s.lower()` (ASCII; the tags compared here are ASCII). -/
def toLowerText (s : Text) : Text := s.map Char.toLower

/-- Python truthiness of an optional string: `None` and `""` are falsy. -/
def truthy : Option Text → Bool
  | none => false
  | some s => !s.isEmpty

/-- `"python"`. -/
def PYTHON : Text := ("python").toList

/-- `"py"`. -/
def PY : Text := ("py").toList

/-- `PY_LANG_CODES = ("python", "py")` — order matters, `"py"` is second. -/
def PY_LANG_CODES : List Text := [PYTHON, PY]

/-- `EXAMPLE_PY.format(lang=lang)`, i.e. `f"{lang}\nprint('Hello, world!')"`. -/
def example_py (lang : Text) : Text :=
  lang ++ ("\nprint(\x27Hello, world!\x27)").toList

/-- `valid_ticks = f"\\{BACKTICK}" * 3`, the escaped canonical fence. -/
def VALID_TICKS : Text := ("\\`\\`\\`").toList

/-- `EXAMPLE_CODE_BLOCKS.format(content=content)`: the escaped example block
followed by the rendered result block. -/
def example_code_blocks (content : Text) : Text :=
  VALID_TICKS ++ content ++ ("\n").toList ++ VALID_TICKS ++
    ("\n\n**This will result in the following:**\n```").toList ++ content ++ ("```").toList

/-- `f"**To do this, use the following method:**\n{example_blocks}"` header,
shared verbatim by `get_no_ticks_message` and `get_no_lang_message`. -/
def METHOD_HEAD : Text := ("**To do this, use the following method:**\n").toList

/-- `CodeFormatting.get_no_ticks_message`. -/
def get_no_ticks_message (parse : Text → Option (List PyStmt)) (content : Text) : Option Text :=
  if is_repl_code content 3 || is_python_code parse content then
    some
      (("It looks like you\x27re trying to paste code into this channel.\n\nDiscord has support for Markdown, which allows you to post code with full syntax highlighting. Please use these whenever you paste code, as this helps improve the legibility and makes it easier for us to help you.\n\n").toList
        ++ METHOD_HEAD ++ example_code_blocks (example_py PYTHON))
  else none

/-- `CodeFormatting.get_no_lang_message`. -/
def get_no_lang_message (parse : Text → Option (List PyStmt)) (content : Text) : Option Text :=
  if is_repl_code content 3 || is_python_code parse content then
    some
      (("It looks like you pasted Python code without syntax highlighting.\n\nPlease use syntax highlighting to improve the legibility of your code and make it easier for us to help you.\n\n").toList
        ++ METHOD_HEAD ++ example_code_blocks (example_py PYTHON))
  else none

/-- First line appended by `get_bad_lang_message` (note the trailing `\n`,
which `get_bad_ticks_message` relies on). -/
def BAD_LANG_HEAD : Text :=
  ("It looks like you incorrectly specified a language for your code block.\n").toList

/-- The leading-space defect line of `get_bad_lang_message`. -/
def space_note (lang : Text) : Text :=
  ("Make sure there are no spaces between the back ticks and `").toList ++ lang ++ ("`.").toList

/-- The tag-not-followed-by-a-newline defect line of `get_bad_lang_message`. -/
def newline_note (lang : Text) : Text :=
  ("Make sure you put your code on a new line following `").toList ++ lang ++
    ("`. There must not be any spaces after `").toList ++ lang ++ ("`.").toList

/-- The worked-example line appended last by `get_bad_lang_message`. -/
def example_note (lang : Text) : Text :=
  ("\n**Here is an example of how it should look:**\n").toList ++
    example_code_blocks (example_py lang)

/-- `CodeFormatting.get_bad_lang_message`.  The unguarded index
`stripped[len(lang)]` raises `IndexError` when `stripped` is exactly the
matched tag, embedded as `Except.error`. -/
def get_bad_lang_message (content : Text) : Except PyErr (Option Text) :=
  let stripped := toLowerText (lstrip content)
  match PY_LANG_CODES.find? (fun lang => beginsWith lang stripped) with
  | none => Except.ok none
  | some lang =>
    let lines1 := [BAD_LANG_HEAD]
    let lines2 := if beginsWith [' '] content then lines1 ++ [space_note lang] else lines1
    match stripped[lang.length]? with
    | none => Except.error PyErr.indexError
    | some c =>
      let lines3 := if ¬(c = '\n') then lines2 ++ [newline_note lang] else lines2
      Except.ok (some (List.intercalate ['\n'] (lines3 ++ [example_note lang])))

/-- `instructions` built at the top of `get_bad_ticks_message` before the
language-specifier inspection (trailing space included, "because something
may be appended"). -/
def BAD_TICKS_HEAD : Text :=
  ("It looks like you are trying to paste code into this channel.\n\nYou seem to be using the wrong symbols to indicate where the code block should start. The correct symbols would be ").toList

/-- `f", not `"` between the valid ticks and the offending ticks. -/
def COMMA_NOT_BT : Text := (", not `").toList

/-- The `f"`. "` closing the offending-ticks sentence. -/
def BT_DOT : Text := ("`. ").toList

/-- The `"\n\nFurthermore, "` connector used when a language-specifier issue
is demoted into a continuation clause. -/
def FURTHERMORE_TXT : Text := ("\n\nFurthermore, ").toList

/-- The `"\n\n**Here is an example of how it should look:**\n"` header of the
no-addition branch of `get_bad_ticks_message`. -/
def EXAMPLE_HEAD2 : Text := ("\n\n**Here is an example of how it should look:**\n").toList

/-- `addition_msg.replace("\n\n", " ", 1)`: collapse the first paragraph
break into a single space. -/
def replaceFirstNLNL : Text → Text
  | [] => []
  | [c] => [c]
  | c1 :: c2 :: t =>
    if c1 = '\n' ∧ c2 = '\n' then ' ' :: t
    else c1 :: replaceFirstNLNL (c2 :: t)

/-- `addition_msg[0].lower() + addition_msg[1:]` (total on `[]`; the source
only reaches it on truthy, hence non-empty, strings). -/
def lowerFirst : Text → Text
  | [] => []
  | c :: t => c.toLower :: t

/-- `CodeFormatting.get_bad_ticks_message`. -/
def get_bad_ticks_message (parse : Text → Option (List PyStmt)) (cb : CodeBlock) :
    Except PyErr (Option Text) :=
  let instructions :=
    BAD_TICKS_HEAD ++ VALID_TICKS ++ COMMA_NOT_BT ++ [cb.tick, cb.tick, cb.tick] ++ BT_DOT
  match get_bad_lang_message cb.content with
  | Except.error e => Except.error e
  | Except.ok badLang =>
    let addition := if truthy badLang then badLang else get_no_lang_message parse cb.content
    if truthy addition then
      let a := replaceFirstNLNL (addition.getD [])
      Except.ok (some (instructions ++ FURTHERMORE_TXT ++ lowerFirst a))
    else
      let content :=
        if toLowerText cb.language ∈ PY_LANG_CODES then example_py cb.language
        else if ¬(cb.language = []) then cb.language ++ ("\n...").toList
        else ("Hello, world!").toList
      Except.ok (some (instructions ++ EXAMPLE_HEAD2 ++ example_code_blocks content))

/-- `dict.get(k)` over an association list (Python dicts keep one binding per
key; the cog's dicts are keyed by channel or message ids). -/
def lookupA (k : Nat) : List (Nat × Nat) → Option Nat
  | [] => none
  | (k2, v) :: t => if k2 = k then some v else lookupA k t

/-- `dict[k] = v`. -/
def insertA (k v : Nat) : List (Nat × Nat) → List (Nat × Nat)
  | [] => [(k, v)]
  | (k2, v2) :: t => if k2 = k then (k, v) :: t else (k2, v2) :: insertA k v t

/-- `del dict[k]`. -/
def eraseA (k : Nat) : List (Nat × Nat) → List (Nat × Nat)
  | [] => []
  | (k2, v2) :: t => if k2 = k then t else (k2, v2) :: eraseA k t

/-- The `CodeFormatting` instance state: `channel_cooldowns` (channel id to
epoch seconds of the last advisory), `channel_whitelist`, and
`codeblock_message_ids` (original message id to advisory message id). -/
structure BotState where
  channel_cooldowns : List (Nat × Nat)
  channel_whitelist : List Nat
  codeblock_message_ids : List (Nat × Nat)
  deriving DecidableEq, Repr

/-- The message data `on_message` consumes.  `has_token` stands for the
external `TokenRemover.find_token_in_message` collaborator (the token-scanner
cog is not part of this file's source), `channel_category` for the channel's
category id when it has one. -/
structure Msg where
  id : Nat
  author_bot : Bool
  channel_id : Nat
  channel_category : Option Nat
  content : Text
  has_token : Bool
  deriving Repr

/-- `CodeFormatting.is_help_channel`.  The configured help-category ids
(`Categories.help_available`, `Categories.help_in_use`) come from external
constants, passed in as `helpCats`. -/
def is_help_channel (helpCats : List Nat) (category : Option Nat) : Bool :=
  match category with
  | some c => c ∈ helpCats
  | none => false

/-- `CodeFormatting.is_valid_channel`. -/
def is_valid_channel (helpCats : List Nat) (st : BotState)
    (category : Option Nat) (chId : Nat) : Bool :=
  is_help_channel helpCats category
    || (lookupA chId st.channel_cooldowns).isSome
    || chId ∈ st.channel_whitelist

/-- `CodeFormatting.is_on_cooldown`:
`(time.time() - self.channel_cooldowns.get(channel.id, 0)) < 300`.
Time is modelled as natural-number epoch seconds; truncated subtraction
agrees with the float comparison (a negative difference is also `< 300`). -/
def is_on_cooldown (now : Nat) (st : BotState) (chId : Nat) : Bool :=
  now - ((lookupA chId st.channel_cooldowns).getD 0) < 300

/-- `CodeFormatting.should_parse`. -/
def should_parse (helpCats : List Nat) (st : BotState) (msg : Msg) : Bool :=
  !msg.author_bot
    && is_valid_channel helpCats st msg.channel_category msg.channel_id
    && (3 < split3len msg.content)
    && !msg.has_token

/-- The description computed by the body of `on_message` (source lines
343-361): dispatch on the extraction result, preferring the first
wrong-ticks block, then the first block's language problems. -/
def message_description (parse : Text → Option (List PyStmt)) (content : Text) :
    Except PyErr (Option Text) :=
  let blocks := find_code_blocks content
  if blocks = [] then Except.ok (get_no_ticks_message parse content)
  else
    match blocks.find? (fun blk => !(blk.tick = BACKTICK)) with
    | some block => get_bad_ticks_message parse block
    | none =>
      match blocks with
      | [] => Except.ok none
      | block :: _ =>
        match get_bad_lang_message block.content with
        | Except.error e => Except.error e
        | Except.ok d =>
          if truthy d then Except.ok d
          else Except.ok (get_no_lang_message parse block.content)

/-- `CodeFormatting.on_message` as a state transition.  `debug` is the
external `DEBUG_MODE` constant, `botMsgId` the id the transport gives the
sent advisory, `now` the value of `time.time()` during the handler.  The
result pairs the new state with the advisory text sent (or `none`); a raised
exception is an `Except.error`. -/
def on_message (parse : Text → Option (List PyStmt)) (debug : Bool)
    (helpCats : List Nat) (botMsgId : Nat) (now : Nat) (st : BotState) (msg : Msg) :
    Except PyErr (BotState × Option Text) :=
  if !(should_parse helpCats st msg) then Except.ok (st, none)
  else if is_on_cooldown now st msg.channel_id && !debug then Except.ok (st, none)
  else
    match message_description parse msg.content with
    | Except.error e => Except.error e
    | Except.ok description =>
      if truthy description then
        let st1 :=
          { st with codeblock_message_ids := insertA msg.id botMsgId st.codeblock_message_ids }
        let st2 :=
          if msg.channel_id ∈ st.channel_whitelist then st1
          else { st1 with channel_cooldowns := insertA msg.channel_id now st1.channel_cooldowns }
        Except.ok (st2, description)
      else Except.ok (st, none)

/-- Failures the discord collaborator can report back. -/
inductive DiscordErr
  | notFound
  deriving DecidableEq, Repr

/-- A `RawMessageUpdateEvent` payload: `message_id`, and the optional
`data["content"]` and `data["channel_id"]` fields. -/
structure EditPayload where
  message_id : Nat
  content : Option Text
  channel_id : Option Nat
  deriving Repr

/-- `CodeFormatting.on_raw_message_edit` as a state transition.
`fetch_result` is what `channel.fetch_message(...)` reports and
`delete_result` what `bot_message.delete()` reports; the source wraps
neither in a `try`, so an error propagates (`Except.error`) and the
statements after it — including `del self.codeblock_message_ids[...]` —
never run.  The boolean in the result records whether the advisory was
deleted. -/
def on_raw_message_edit (st : BotState) (p : EditPayload)
    (fetch_result : Except DiscordErr Unit) (delete_result : Except DiscordErr Unit) :
    Except DiscordErr (BotState × Bool) :=
  if (lookupA p.message_id st.codeblock_message_ids).isNone
      ∨ p.content.isNone ∨ p.channel_id.isNone then
    Except.ok (st, false)
  else
    let code_blocks := find_code_blocks (p.content.getD [])
    if code_blocks.isEmpty then
      match fetch_result with
      | Except.error e => Except.error e
      | Except.ok _ =>
        match delete_result with
        | Except.error e => Except.error e
        | Except.ok _ =>
          Except.ok
            ({ st with codeblock_message_ids := eraseA p.message_id st.codeblock_message_ids },
              true)
    else Except.ok (st, false)

/-- A canonical-backtick fenced block with a non-empty language tag and a
more-than-three-line body occurs somewhere in the text: at some position the
block pattern matches with those properties.  This is the literal reading of
"input text that contains a fenced block ... present anywhere". -/
def contains_canonical_tagged_long_block (text : Text) : Prop :=
  ∃ i b rest, matchAt (text.drop i) = some (b, rest) ∧ b.tick = BACKTICK ∧
    ¬(b.language = []) ∧ 3 < split3len b.content

/-- Input whose leading quote fence swallows a canonical tagged block:
`'''`, newline, a full ` ```py ` block of four lines, ` ``` `, `x`, `'''`,
`t`. -/
def c1text : Text := ("\x27\x27\x27\n```py\na\nb\nc\nd\n```x\x27\x27\x27t").toList

/-- A quote-fenced four-line block followed by a canonical tagged block:
here the scan discovers both. -/
def c1scanText : Text := ("\x27\x27\x27\na\nb\nc\nd\n\x27\x27\x27x```py\np\nq\nr\ns\n```").toList

/-- The canonical tagged match the scan discovers second in `c1scanText`. -/
def c1scanBlock : CodeBlock := ⟨("p\nq\nr\ns\n").toList, ("py").toList, BACKTICK⟩

/-- A canonical tagged block whose body spans fewer than four lines. -/
def c10text : Text := ("```py\na\n```").toList

/-- A tracker state with one outstanding advisory: original message 5 was
answered by advisory message 9. -/
def c2state : BotState := ⟨[], [], [(5, 9)]⟩

/-- An edit of tracked message 5 whose new content has no code blocks. -/
def c2payload : EditPayload := ⟨5, some [], some 3⟩

/-- A canonical triple-backtick fence whose tag line is `"py "` — the tag is
followed by a space instead of a newline, so the regex records no language
and the tag line lands in the block's content. -/
def c9text : Text := ("```py \nx = 1\ny = 2\nz = 3\nw = 4\n```").toList

/-- The guidance `get_bad_lang_message` assembles for content that begins
with the tag `py` not followed by a newline: header, the
code-on-a-new-line defect line, and the worked example, joined by newlines. -/
def c9guidance : Text :=
  List.intercalate ['\n'] [BAD_LANG_HEAD, newline_note PY, example_note PY]

/-- A quote-fenced block whose content starts with a malformed `py` tag,
so the wrong-ticks guidance gains a demoted language clause. -/
def c7text : Text := ("\x27\x27\x27py x\na\nb\nc\n\x27\x27\x27").toList

/-- A quote-fenced block whose content is `"\n\n\npy"`: it lstrips to
exactly `py`, so the language-specifier inspection inside the wrong-ticks
composer hits the unguarded index and raises instead of emitting
guidance. -/
def c7badtext : Text := ("\x27\x27\x27\n\n\npy\x27\x27\x27").toList

/-! ## Theorems -/

/-- Once the scan discovers a match with canonical ticks and a language,
the loop returns the empty result, whatever was collected before or would
come after. -/
theorem findAux_none_of_canonical (fuel : Nat) :
    ∀ (s : Text) (b : CodeBlock), b ∈ rawMatchesAux fuel s → b.tick = BACKTICK →
      ¬(b.language = []) → findAux fuel s = none := by
  induction fuel with
  | zero =>
    intro s b hb
    simp [rawMatchesAux] at hb
  | succ n ih =>
    intro s b hb htick hlang
    match s with
    | [] => simp [rawMatchesAux] at hb
    | c :: t =>
      cases hm : matchAt (c :: t) with
      | none =>
        rw [rawMatchesAux, hm] at hb
        rw [findAux, hm]
        exact ih t b hb htick hlang
      | some pr =>
        obtain ⟨b2, rest⟩ := pr
        rw [rawMatchesAux, hm] at hb
        rw [findAux, hm]
        rcases List.mem_cons.mp hb with rfl | hmem
        · simp [htick, hlang]
        · by_cases hcond : b2.tick = BACKTICK ∧ ¬(b2.language = [])
          · simp [hcond]
          · have hfr := ih rest b hmem htick hlang
            simp [hcond, hfr]

/-- C1 (amended): when the extractor's forward scan discovers a match with
the canonical backtick delimiter, a non-empty language tag and a
more-than-three-line body, `find_code_blocks` returns the empty sequence,
regardless of any other matches earlier or later in the scan. -/
theorem c1_scan_short_circuit (text : Text) (b : CodeBlock)
    (hb : b ∈ rawMatches text) (htick : b.tick = BACKTICK)
    (hlang : ¬(b.language = [])) (_hlen : 3 < split3len b.content) :
    find_code_blocks text = [] := by
  unfold rawMatches at hb
  unfold find_code_blocks
  rw [findAux_none_of_canonical text.length text b hb htick hlang]

/-- C1 (witness): in `c1scanText` the scan discovers a quote-fenced block
and then the canonical tagged block `c1scanBlock`, and the extractor
returns the empty sequence. -/
theorem c1_scan_short_circuit_witness : find_code_blocks c1scanText = [] :=
  c1_scan_short_circuit c1scanText c1scanBlock (by decide) (by decide) (by decide)
    (by decide)

/-- C1 (counterexample): `c1text` contains a canonical backtick block with
tag `py` and a four-line body (the pattern matches at offset 4), yet
`find_code_blocks` returns a non-empty sequence, because the leading
quote-fenced match swallows the canonical block before the scan can see
it. -/
theorem c1_counterexample :
    contains_canonical_tagged_long_block c1text ∧ ¬(find_code_blocks c1text = []) := by
  constructor
  · exact ⟨4, ⟨("a\nb\nc\nd\n").toList, ("py").toList, BACKTICK⟩,
      ("x\x27\x27\x27t").toList, by decide, by decide, by decide, by decide⟩
  · decide

/-- C10: the canonical-ticks-with-language short circuit does not require
the triggering match to pass the four-line collection filter: a discovered
canonical tagged match whose body has three or fewer lines still makes
`find_code_blocks` return the empty sequence. -/
theorem c10_short_circuit_ignores_length (text : Text) (b : CodeBlock)
    (hb : b ∈ rawMatches text) (htick : b.tick = BACKTICK)
    (hlang : ¬(b.language = [])) (_hshort : ¬(3 < split3len b.content)) :
    find_code_blocks text = [] := by
  unfold rawMatches at hb
  unfold find_code_blocks
  rw [findAux_none_of_canonical text.length text b hb htick hlang]

/-- C10 (witness): `c10text` is a canonical `py`-tagged block with a
one-line body; the scan discovers it and the extractor returns the empty
sequence. -/
theorem c10_short_circuit_ignores_length_witness : find_code_blocks c10text = [] :=
  c10_short_circuit_ignores_length c10text ⟨("a\n").toList, ("py").toList, BACKTICK⟩
    (by decide) (by decide) (by decide) (by decide)

/-- C2: when the edit of tracked message 5 has no remaining code blocks but
the discord collaborator reports the advisory as already gone at the fetch,
`on_raw_message_edit` propagates the failure instead of recovering, and the
`del self.codeblock_message_ids[...]` line is never reached: no `ok` state
with the entry cleared is produced. -/
theorem c2_stale_reference_raises :
    on_raw_message_edit c2state c2payload (Except.error DiscordErr.notFound) (Except.ok ()) =
      Except.error DiscordErr.notFound := rfl

/-- C3: `get_bad_lang_message` is not total: on content `"py"` (the tag with
nothing after it) the unguarded index `stripped[len(lang)]` raises
`IndexError` to the caller. -/
theorem c3_bad_lang_index_error :
    get_bad_lang_message (("py").toList) = Except.error PyErr.indexError := rfl

/-- C4: `is_python_code` returns `true` exactly when the parse succeeds and
some top-level node is not a bare expression statement; in particular it is
`false` on parse failure and `false` when every node is a bare expression. -/
theorem c4_is_python_code_spec (parse : Text → Option (List PyStmt)) (content : Text) :
    is_python_code parse content = true ↔
      ∃ body, parse content = some body ∧ ∃ stmt ∈ body, ¬(stmt = PyStmt.exprStmt) := by
  unfold is_python_code
  cases hp : parse content with
  | none => simp
  | some body => simp [List.all_eq_true]

/-- The counter loop of `is_repl_code` returns `true` exactly when the
prompt lines can push the running count from `c` up to the threshold. -/
theorem replGo_true_iff (t : Nat) :
    ∀ (lines : List Text) (c : Nat), c < t →
      (replGo t lines c = true ↔ t ≤ c + lines.countP isPromptLine) := by
  intro lines
  induction lines with
  | nil =>
    intro c hc
    simp only [replGo, List.countP_nil]
    constructor
    · intro h; exact absurd h (by simp)
    · intro h; omega
  | cons l rest ih =>
    intro c hc
    simp only [replGo, List.countP_cons]
    cases hl : isPromptLine l with
    | true =>
      simp only [hl, eq_self_iff_true, if_true]
      by_cases he : c + 1 = t
      · rw [if_pos he]
        simp only [true_iff]
        omega
      · rw [if_neg he, ih (c + 1) (by omega)]
        constructor <;> intro h <;> omega
    | false =>
      simp only [hl, Bool.false_eq_true, if_false]
      rw [if_neg (by omega : ¬(c = t)), ih c hc]
      constructor <;> intro h <;> omega

/-- Appending further lines after the loop has already answered `true`
cannot change the answer: the scan stops at the threshold. -/
theorem replGo_append (t : Nat) :
    ∀ (pre post : List Text) (c : Nat), replGo t pre c = true →
      replGo t (pre ++ post) c = true := by
  intro pre
  induction pre with
  | nil =>
    intro post c h
    simp [replGo] at h
  | cons l rest ih =>
    intro post c h
    rw [List.cons_append]
    rw [replGo] at h ⊢
    by_cases he : (if isPromptLine l then c + 1 else c) = t
    · simp [he]
    · simp only [if_neg he] at h ⊢
      exact ih post _ h

/-- C5: with the default threshold 3, `is_repl_code` answers `true` exactly
when at least 3 lines start with `">>> "` or `"... "` (counted together); a
content with exactly 2 such lines yields `false`; and the counting loop
ignores every line after the one that reaches the threshold. -/
theorem c5_is_repl_code_spec :
    (∀ content : Text, is_repl_code content 3 = true ↔
        3 ≤ (splitlines content).countP isPromptLine)
    ∧ (∀ content : Text, (splitlines content).countP isPromptLine = 2 →
        is_repl_code content 3 = false)
    ∧ (∀ pre post : List Text, replGo 3 pre 0 = true →
        replGo 3 (pre ++ post) 0 = true) := by
  refine ⟨fun content => ?_, fun content h2 => ?_,
    fun pre post h => replGo_append 3 pre post 0 h⟩
  · unfold is_repl_code
    have h := replGo_true_iff 3 (splitlines content) 0 (by omega)
    simpa using h
  · cases hr : is_repl_code content 3 with
    | false => rfl
    | true =>
      unfold is_repl_code at hr
      have := (replGo_true_iff 3 (splitlines content) 0 (by omega)).mp hr
      omega

/-- C5 (witness): `">>> a\n... b\nc"` has exactly two prompt lines and is
rejected; a list of three prompt lines already answers `true`, and stays
`true` with a further line appended. -/
theorem c5_is_repl_code_spec_witness :
    is_repl_code ((">>> a\n... b\nc").toList) 3 = false ∧
    replGo 3 ([(">>> 1").toList, (">>> 2").toList, (">>> 3").toList] ++ [("x").toList]) 0
      = true := by
  constructor
  · exact c5_is_repl_code_spec.2.1 ((">>> a\n... b\nc").toList) (by decide)
  · exact c5_is_repl_code_spec.2.2
      [(">>> 1").toList, (">>> 2").toList, (">>> 3").toList] [("x").toList] (by decide)

/-- C6: for an edit notification about a tracked message with content and
channel identity present, and the external fetch/delete succeeding: an
empty re-extraction deletes the advisory and removes the tracker entry,
while a non-empty re-extraction leaves the state exactly unchanged and
deletes nothing — an edit never re-flags or otherwise mutates the entry. -/
theorem c6_edit_reconciliation (st : BotState) (p : EditPayload) (b : Nat) (c : Text)
    (hmem : lookupA p.message_id st.codeblock_message_ids = some b)
    (hc : p.content = some c) (hch : p.channel_id.isSome = true) :
    (find_code_blocks c = [] →
      on_raw_message_edit st p (Except.ok ()) (Except.ok ()) =
        Except.ok
          ({ st with codeblock_message_ids := eraseA p.message_id st.codeblock_message_ids },
            true))
    ∧ (¬(find_code_blocks c = []) →
      on_raw_message_edit st p (Except.ok ()) (Except.ok ()) = Except.ok (st, false)) := by
  unfold on_raw_message_edit
  rw [hmem, hc]
  rw [Option.isSome_iff_exists] at hch
  obtain ⟨ch, hch⟩ := hch
  rw [hch]
  constructor
  · intro he
    simp [he]
  · intro hne
    simp [hne, List.isEmpty_iff]

/-- C6 (witness): with tracked message 5 and advisory 9, an edit to empty
content clears the entry and deletes the advisory; an edit that still has a
quote-fenced four-line block leaves the entry standing. -/
theorem c6_edit_reconciliation_witness :
    on_raw_message_edit c2state ⟨5, some [], some 3⟩ (Except.ok ()) (Except.ok ()) =
      Except.ok
        ({ c2state with codeblock_message_ids := eraseA 5 c2state.codeblock_message_ids },
          true) ∧
    on_raw_message_edit c2state
        ⟨5, some (("\x27\x27\x27\na\nb\nc\nd\n\x27\x27\x27").toList), some 3⟩
        (Except.ok ()) (Except.ok ()) =
      Except.ok (c2state, false) :=
  ⟨(c6_edit_reconciliation c2state ⟨5, some [], some 3⟩ 9 [] rfl rfl rfl).1 (by decide),
   (c6_edit_reconciliation c2state
      ⟨5, some (("\x27\x27\x27\na\nb\nc\nd\n\x27\x27\x27").toList), some 3⟩ 9
      (("\x27\x27\x27\na\nb\nc\nd\n\x27\x27\x27").toList) rfl rfl rfl).2 (by decide)⟩

/-- C8: a channel with a recorded cooldown timestamp that is not
allow-listed receives no advisory while `time.time()` is within 300 seconds
of that timestamp and debug mode is off, whatever the message; and the
cooldown check never rejects a channel with no cooldown entry (in
particular an allow-listed one) at any realistic epoch time (≥ 300). -/
theorem c8_cooldown_window :
    (∀ (parse : Text → Option (List PyStmt)) (helpCats : List Nat)
        (botMsgId now : Nat) (st : BotState) (msg : Msg) (t0 : Nat),
      lookupA msg.channel_id st.channel_cooldowns = some t0 →
      ¬(msg.channel_id ∈ st.channel_whitelist) →
      now < t0 + 300 →
      on_message parse false helpCats botMsgId now st msg = Except.ok (st, none))
    ∧ (∀ (now : Nat) (st : BotState) (chId : Nat),
      lookupA chId st.channel_cooldowns = none → 300 ≤ now →
      is_on_cooldown now st chId = false) := by
  constructor
  · intro parse helpCats botMsgId now st msg t0 hlk hwl hwin
    unfold on_message
    cases hsp : should_parse helpCats st msg with
    | false => simp
    | true =>
      have hcd : is_on_cooldown now st msg.channel_id = true := by
        unfold is_on_cooldown
        rw [hlk]
        simp only [Option.getD_some, decide_eq_true_eq]
        omega
      simp [hcd]
  · intro now st chId hlk h300
    unfold is_on_cooldown
    rw [hlk]
    simp only [Option.getD_none, decide_eq_false_iff_not]
    omega

/-- C8 (witness): channel 1 last saw an advisory at time 1000; at time 1100
a four-line-looking message in that channel is ignored and the state is
untouched; and channel 7, absent from the cooldown map, is not on cooldown
at time 400. -/
theorem c8_cooldown_window_witness :
    on_message (fun _ => none) false [] 9 1100 ⟨[(1, 1000)], [], []⟩
        ⟨3, false, 1, none, ("a\nb\nc\nd").toList, false⟩ =
      Except.ok (⟨[(1, 1000)], [], []⟩, none) ∧
    is_on_cooldown 400 ⟨[], [], []⟩ 7 = false :=
  ⟨c8_cooldown_window.1 (fun _ => none) [] 9 1100 ⟨[(1, 1000)], [], []⟩
      ⟨3, false, 1, none, ("a\nb\nc\nd").toList, false⟩ 1000 rfl (by decide) (by omega),
   c8_cooldown_window.2 400 ⟨[], [], []⟩ 7 rfl (by omega)⟩

/-- C7 (counterexample): extraction of `c7badtext` yields a non-canonical
quote block, yet the composer emits no wrong-delimiter guidance at all —
its language-specifier inspection raises `IndexError` on the block's
content `"\n\n\npy"`, so the claimed universal emission fails. -/
theorem c7_counterexample :
    (find_code_blocks c7badtext).find? (fun blk => !(blk.tick = BACKTICK)) =
      some ⟨("\n\n\npy").toList, [], Char.ofNat 39⟩ ∧
    message_description (fun _ => none) c7badtext = Except.error PyErr.indexError :=
  ⟨by decide, rfl⟩

/-- C7 (amended): when extraction yields at least one block with
non-canonical ticks and the language-specifier inspection of the first such
block (in scan order) returns normally, the composer emits the
wrong-symbols guidance naming that block's tick tripled and the escaped
canonical backticks — whatever the inspection found; and whenever a
secondary language explanation is drawn (from the malformed-tag check or
the missing-tag fallback), it is appended after "Furthermore, " with its
first paragraph break collapsed to a space and its first letter
lower-cased, instead of standing alone. -/
theorem c7_bad_ticks_guidance (parse : Text → Option (List PyStmt)) (content : Text)
    (b : CodeBlock) (r : Option Text)
    (hfind : (find_code_blocks content).find? (fun blk => !(blk.tick = BACKTICK)) = some b)
    (hlang : get_bad_lang_message b.content = Except.ok r) :
    (∃ tail, message_description parse content =
      Except.ok (some (BAD_TICKS_HEAD ++ VALID_TICKS ++ COMMA_NOT_BT ++
        [b.tick, b.tick, b.tick] ++ BT_DOT ++ tail)))
    ∧ (∀ a : Text,
      (if truthy r then r else get_no_lang_message parse b.content) = some a →
      ¬(a = []) →
      message_description parse content =
        Except.ok (some (BAD_TICKS_HEAD ++ VALID_TICKS ++ COMMA_NOT_BT ++
          [b.tick, b.tick, b.tick] ++ BT_DOT ++ FURTHERMORE_TXT ++
          lowerFirst (replaceFirstNLNL a)))) := by
  have hne : ¬(find_code_blocks content = []) := by
    intro h
    rw [h] at hfind
    simp at hfind
  unfold message_description
  rw [if_neg hne]
  simp only [hfind]
  unfold get_bad_ticks_message
  simp only [hlang]
  constructor
  · by_cases htr :
      truthy (if truthy r then r else get_no_lang_message parse b.content) = true
    · rw [if_pos htr]
      exact ⟨FURTHERMORE_TXT ++ lowerFirst (replaceFirstNLNL
        ((if truthy r then r else get_no_lang_message parse b.content).getD [])),
        by simp [List.append_assoc]⟩
    · rw [if_neg htr]
      exact ⟨EXAMPLE_HEAD2 ++ example_code_blocks
        (if toLowerText b.language ∈ PY_LANG_CODES then example_py b.language
          else if ¬(b.language = []) then b.language ++ ("\n...").toList
          else ("Hello, world!").toList),
        by simp [List.append_assoc]⟩
  · intro a ha hane
    rw [ha]
    have htr : truthy (some a) = true := by
      simp [truthy, List.isEmpty_iff, hane]
    simp only [htr, if_true, Option.getD_some, List.append_assoc]

/-- C7 (witness): on the quote-fenced block of `c7text`, whose content
carries a malformed `py` tag, the composer emits the wrong-symbols guidance
for the quote tick with the demoted language clause appended. -/
theorem c7_bad_ticks_guidance_witness :
    message_description (fun _ => none) c7text =
      Except.ok (some (BAD_TICKS_HEAD ++ VALID_TICKS ++ COMMA_NOT_BT ++
        [Char.ofNat 39, Char.ofNat 39, Char.ofNat 39] ++ BT_DOT ++ FURTHERMORE_TXT ++
        lowerFirst (replaceFirstNLNL c9guidance))) :=
  (c7_bad_ticks_guidance (fun _ => none) c7text
    ⟨("py x\na\nb\nc\n").toList, [], Char.ofNat 39⟩ (some c9guidance)
    (by decide) rfl).2 c9guidance rfl (by decide)

/-- C9: for an admitted message (human author, valid channel, no token, not
on cooldown) whose content is a canonical triple-backtick fence with the tag
line `"py "` — trailing space before the newline — the handler sends the
malformed-language-specifier guidance, which contains the
code-on-a-new-line / no-spaces-after-the-tag defect explanation
(`newline_note PY`). -/
theorem c9_bad_tag_guidance (parse : Text → Option (List PyStmt))
    (helpCats : List Nat) (botMsgId now : Nat) (st : BotState) (msg : Msg)
    (hbot : msg.author_bot = false) (htok : msg.has_token = false)
    (hch : is_valid_channel helpCats st msg.channel_category msg.channel_id = true)
    (hcd : is_on_cooldown now st msg.channel_id = false)
    (hcontent : msg.content = c9text) :
    ∃ st2, on_message parse false helpCats botMsgId now st msg =
      Except.ok (st2, some c9guidance) := by
  have hsp : should_parse helpCats st msg = true := by
    unfold should_parse
    rw [hbot, htok, hch, hcontent]
    decide
  have hdesc : message_description parse c9text = Except.ok (some c9guidance) := rfl
  have htr : truthy (some c9guidance) = true := by decide
  unfold on_message
  rw [hsp, hcd, hcontent, hdesc]
  simp only [Bool.not_true, Bool.false_and, Bool.false_eq_true, if_false, htr, if_true]
  exact ⟨_, rfl⟩

/-- C9 (witness): a concrete admitted message carrying `c9text` in
cooldown-tracked channel 1 (last advisory at epoch 0, handled at 400)
draws the malformed-tag guidance. -/
theorem c9_bad_tag_guidance_witness :
    ∃ st2, on_message (fun _ => none) false [] 9 400 ⟨[(1, 0)], [], []⟩
        ⟨77, false, 1, none, c9text, false⟩ =
      Except.ok (st2, some c9guidance) :=
  c9_bad_tag_guidance (fun _ => none) [] 9 400 ⟨[(1, 0)], [], []⟩
    ⟨77, false, 1, none, c9text, false⟩ rfl rfl (by decide) (by decide) rfl
